import Mathlib

/-!
# Verification of the erdos pylot ground-truth projection and PID control code

This file gives a shallow embedding of the numerical core of the repository:

* `examples/pylot/simulation/utils.py` — projection of a 3-D bounding box into
  a 2-D image box (`map_ground_bounding_box_to_2D`, `get_bounding_box_from_corners`,
  `get_bounding_box_sampling_points`, `get_2d_bbox_from_3d_box`, `have_same_depth`,
  `inside_image`, `select_max_bbox`), modelled over exact rationals.  A `Transform`
  is consumed by this code only through its homogeneous 4x4 matrix
  (`transform_points`, `__mul__`, `inv`), so transforms are embedded as 4x4
  rational matrices.
* `examples/pylot/control/pid_control_operator.py` — throttle/brake/steer
  computation (`_get_throttle_brake`, `_get_steering`, `on_can_bus_update`),
  modelled over the reals (the steering law uses `cos`, `sin`, `sqrt`, `acos`).
  The external PID library is abstracted as a function from (target, feedback)
  to the pid gain, exactly the quantity the specification calls the PID output.

Definitions are written to be executable so that concrete scenarios evaluate
by `decide`.
-/

set_option maxRecDepth 4000

attribute [local semireducible] Rat.add Rat.sub Rat.mul Rat.inv Rat.ofScientific

/-- A 3-D point / projected pixel location `(x, y, z)`, modelling
`simulation.messages.Location` and the `(x, y, z)` corner tuples. -/
structure Location where
  x : ℚ
  y : ℚ
  z : ℚ
  deriving DecidableEq, Repr

/-- Half-extents of a 3-D bounding box, modelling the `Extent` namedtuple. -/
structure Extent where
  x : ℚ
  y : ℚ
  z : ℚ
  deriving DecidableEq, Repr

/-- A 4x4 homogeneous matrix, modelling `Transform.matrix` (row major). -/
structure Mat4 where
  m00 : ℚ
  m01 : ℚ
  m02 : ℚ
  m03 : ℚ
  m10 : ℚ
  m11 : ℚ
  m12 : ℚ
  m13 : ℚ
  m20 : ℚ
  m21 : ℚ
  m22 : ℚ
  m23 : ℚ
  m30 : ℚ
  m31 : ℚ
  m32 : ℚ
  m33 : ℚ
  deriving DecidableEq, Repr

/-- A 3x3 camera intrinsic matrix (row major). -/
structure Mat3 where
  a00 : ℚ
  a01 : ℚ
  a02 : ℚ
  a10 : ℚ
  a11 : ℚ
  a12 : ℚ
  a20 : ℚ
  a21 : ℚ
  a22 : ℚ
  deriving DecidableEq, Repr

/-- The 4x4 identity matrix (`np.identity(4)`). -/
def idMat4 : Mat4 := ⟨1,0,0,0, 0,1,0,0, 0,0,1,0, 0,0,0,1⟩

/-- The 3x3 identity matrix (`np.identity(3)`). -/
def idMat3 : Mat3 := ⟨1,0,0, 0,1,0, 0,0,1⟩

/-- Matrix product of two homogeneous matrices, modelling `Transform.__mul__`
(`np.dot(self.matrix, other.matrix)`). -/
def mul4 (A B : Mat4) : Mat4 :=
  ⟨A.m00*B.m00 + A.m01*B.m10 + A.m02*B.m20 + A.m03*B.m30,
   A.m00*B.m01 + A.m01*B.m11 + A.m02*B.m21 + A.m03*B.m31,
   A.m00*B.m02 + A.m01*B.m12 + A.m02*B.m22 + A.m03*B.m32,
   A.m00*B.m03 + A.m01*B.m13 + A.m02*B.m23 + A.m03*B.m33,
   A.m10*B.m00 + A.m11*B.m10 + A.m12*B.m20 + A.m13*B.m30,
   A.m10*B.m01 + A.m11*B.m11 + A.m12*B.m21 + A.m13*B.m31,
   A.m10*B.m02 + A.m11*B.m12 + A.m12*B.m22 + A.m13*B.m32,
   A.m10*B.m03 + A.m11*B.m13 + A.m12*B.m23 + A.m13*B.m33,
   A.m20*B.m00 + A.m21*B.m10 + A.m22*B.m20 + A.m23*B.m30,
   A.m20*B.m01 + A.m21*B.m11 + A.m22*B.m21 + A.m23*B.m31,
   A.m20*B.m02 + A.m21*B.m12 + A.m22*B.m22 + A.m23*B.m32,
   A.m20*B.m03 + A.m21*B.m13 + A.m22*B.m23 + A.m23*B.m33,
   A.m30*B.m00 + A.m31*B.m10 + A.m32*B.m20 + A.m33*B.m30,
   A.m30*B.m01 + A.m31*B.m11 + A.m32*B.m21 + A.m33*B.m31,
   A.m30*B.m02 + A.m31*B.m12 + A.m32*B.m22 + A.m33*B.m32,
   A.m30*B.m03 + A.m31*B.m13 + A.m32*B.m23 + A.m33*B.m33⟩

/-- Determinant of a 3x3 matrix given row major. -/
def det3 (a b c d e f g h i : ℚ) : ℚ :=
  a*(e*i - f*h) - b*(d*i - f*g) + c*(d*h - e*g)

/-- Determinant of a 4x4 matrix by cofactor expansion along the first row. -/
def det4 (A : Mat4) : ℚ :=
  A.m00 * det3 A.m11 A.m12 A.m13 A.m21 A.m22 A.m23 A.m31 A.m32 A.m33
  - A.m01 * det3 A.m10 A.m12 A.m13 A.m20 A.m22 A.m23 A.m30 A.m32 A.m33
  + A.m02 * det3 A.m10 A.m11 A.m13 A.m20 A.m21 A.m23 A.m30 A.m31 A.m33
  - A.m03 * det3 A.m10 A.m11 A.m12 A.m20 A.m21 A.m22 A.m30 A.m31 A.m32

/-- Inverse of a 4x4 matrix via the adjugate (cofactor) formula, modelling
`numpy.linalg.inv`.  On a singular matrix the rational division by the zero
determinant yields the zero matrix, a case no claim exercises. -/
def inv4 (A : Mat4) : Mat4 :=
  let c00 :=   det3 A.m11 A.m12 A.m13 A.m21 A.m22 A.m23 A.m31 A.m32 A.m33
  let c01 := - det3 A.m10 A.m12 A.m13 A.m20 A.m22 A.m23 A.m30 A.m32 A.m33
  let c02 :=   det3 A.m10 A.m11 A.m13 A.m20 A.m21 A.m23 A.m30 A.m31 A.m33
  let c03 := - det3 A.m10 A.m11 A.m12 A.m20 A.m21 A.m22 A.m30 A.m31 A.m32
  let c10 := - det3 A.m01 A.m02 A.m03 A.m21 A.m22 A.m23 A.m31 A.m32 A.m33
  let c11 :=   det3 A.m00 A.m02 A.m03 A.m20 A.m22 A.m23 A.m30 A.m32 A.m33
  let c12 := - det3 A.m00 A.m01 A.m03 A.m20 A.m21 A.m23 A.m30 A.m31 A.m33
  let c13 :=   det3 A.m00 A.m01 A.m02 A.m20 A.m21 A.m22 A.m30 A.m31 A.m32
  let c20 :=   det3 A.m01 A.m02 A.m03 A.m11 A.m12 A.m13 A.m31 A.m32 A.m33
  let c21 := - det3 A.m00 A.m02 A.m03 A.m10 A.m12 A.m13 A.m30 A.m32 A.m33
  let c22 :=   det3 A.m00 A.m01 A.m03 A.m10 A.m11 A.m13 A.m30 A.m31 A.m33
  let c23 := - det3 A.m00 A.m01 A.m02 A.m10 A.m11 A.m12 A.m30 A.m31 A.m32
  let c30 := - det3 A.m01 A.m02 A.m03 A.m11 A.m12 A.m13 A.m21 A.m22 A.m23
  let c31 :=   det3 A.m00 A.m02 A.m03 A.m10 A.m12 A.m13 A.m20 A.m22 A.m23
  let c32 := - det3 A.m00 A.m01 A.m03 A.m10 A.m11 A.m13 A.m20 A.m21 A.m23
  let c33 :=   det3 A.m00 A.m01 A.m02 A.m10 A.m11 A.m12 A.m20 A.m21 A.m22
  let d := det4 A
  ⟨c00/d, c10/d, c20/d, c30/d,
   c01/d, c11/d, c21/d, c31/d,
   c02/d, c12/d, c22/d, c32/d,
   c03/d, c13/d, c23/d, c33/d⟩

/-- Apply a homogeneous matrix to a 3-D point: append a homogeneous 1,
multiply, keep the first three rows.  This models both
`Transform.transform_points` applied to one point and
`np.dot(M, [[X], [Y], [Z], [1.0]])[:3]`. -/
def transform_point (A : Mat4) (p : Location) : Location :=
  ⟨A.m00*p.x + A.m01*p.y + A.m02*p.z + A.m03,
   A.m10*p.x + A.m11*p.y + A.m12*p.z + A.m13,
   A.m20*p.x + A.m21*p.y + A.m22*p.z + A.m23⟩

/-- `Transform.transform_points` on a list of points. -/
def transform_points (A : Mat4) (ps : List Location) : List Location :=
  ps.map (transform_point A)

/-- Multiply a 3x3 intrinsic matrix with a camera-frame point
(`np.dot(rgb_intrinsic, transformed_3d_pos[:3])`). -/
def mulVec3 (K : Mat3) (p : Location) : Location :=
  ⟨K.a00*p.x + K.a01*p.y + K.a02*p.z,
   K.a10*p.x + K.a11*p.y + K.a12*p.z,
   K.a20*p.x + K.a21*p.y + K.a22*p.z⟩

/-- A 3-D bounding box: its pose matrix and half extents, modelling the
`BoundingBox` class (whose `transform` the projection code consumes only via
`transform_points`). -/
structure BoundingBox where
  transform : Mat4
  extent : Extent
  deriving DecidableEq, Repr

/-- The 8 corner projections computed inside `map_ground_bounding_box_to_2D`
before the visibility filter: the 8 extent-sign corners, mapped through the
bounding-box transform and the object transform, then through the inverse of
the extrinsic matrix `vehicle_transform * rgb_transform`, the intrinsic
matrix, and the `(width - x/z, height - y/z, z)` normalization. -/
def projected_corners (vehicle_transform obj_transform : Mat4)
    (bounding_box : BoundingBox) (rgb_transform : Mat4) (rgb_intrinsic : Mat3)
    (image_width image_height : ℤ) : List Location :=
  let extrinsic_mat := mul4 vehicle_transform rgb_transform
  let e := bounding_box.extent
  let bbox : List Location :=
    [⟨e.x, e.y, e.z⟩, ⟨e.x, -e.y, e.z⟩, ⟨e.x, e.y, -e.z⟩, ⟨e.x, -e.y, -e.z⟩,
     ⟨-e.x, e.y, e.z⟩, ⟨-e.x, -e.y, e.z⟩, ⟨-e.x, e.y, -e.z⟩, ⟨-e.x, -e.y, -e.z⟩]
  let bbox := transform_points bounding_box.transform bbox
  let bbox := transform_points obj_transform bbox
  bbox.map (fun vertex =>
    let transformed_3d_pos := transform_point (inv4 extrinsic_mat) vertex
    let pos2d := mulVec3 rgb_intrinsic transformed_3d_pos
    ⟨(image_width : ℚ) - pos2d.x / pos2d.z,
     (image_height : ℚ) - pos2d.y / pos2d.z,
     pos2d.z⟩)

/-- The visibility filter of `map_ground_bounding_box_to_2D`:
`z > 0` and `(x >= 0 or y >= 0) and (x < image_width or y < image_height)`. -/
def corner_visible (l : Location) (image_width image_height : ℤ) : Bool :=
  decide (0 < l.z) &&
    ((decide (0 ≤ l.x) || decide (0 ≤ l.y)) &&
     (decide (l.x < (image_width : ℚ)) || decide (l.y < (image_height : ℚ))))

/-- `map_ground_bounding_box_to_2D`: project the 8 corners and keep those
passing the visibility filter, in order. -/
def map_ground_bounding_box_to_2D (vehicle_transform obj_transform : Mat4)
    (bounding_box : BoundingBox) (rgb_transform : Mat4) (rgb_intrinsic : Mat3)
    (image_width image_height : ℤ) : List Location :=
  (projected_corners vehicle_transform obj_transform bounding_box rgb_transform
      rgb_intrinsic image_width image_height).filter
    (fun l => corner_visible l image_width image_height)

example :
    map_ground_bounding_box_to_2D idMat4 idMat4 ⟨idMat4, ⟨5, 1, 1⟩⟩ idMat4 idMat3 4 3 =
      [⟨-1, 2, 1⟩, ⟨-1, 4, 1⟩, ⟨9, 2, 1⟩] := by decide

/-- The skip test of `get_bounding_box_from_corners`:
`abs(a[0] - b[0]) <= 0.8 or abs(a[1] - b[1]) <= 0.8`. -/
def skip_pair (a b : Location) : Prop :=
  |a.x - b.x| ≤ 0.8 ∨ |a.y - b.y| ≤ 0.8

instance (a b : Location) : Decidable (skip_pair a b) := by
  unfold skip_pair; infer_instance

/-- Squared 2-D distance between two corners:
`(b[0] - a[0])**2 + (b[1] - a[1])**2`. -/
def pair_dist (a b : Location) : ℚ :=
  (b.x - a.x)^2 + (b.y - a.y)^2

/-- Orientation of the selected pair: `(a, b)` when `a[0] < b[0] and a[1] < b[1]`,
else `(b, a)`. -/
def orient_pair (a b : Location) : Location × Location :=
  if a.x < b.x ∧ a.y < b.y then (a, b) else (b, a)

/-- One iteration of the loop over corner pairs in `get_bounding_box_from_corners`;
the state is `(max_distance, opp_ends)`. -/
def gbfc_step (st : ℚ × Option (Location × Location)) (p : Location × Location) :
    ℚ × Option (Location × Location) :=
  if skip_pair p.1 p.2 then st
  else
    let distance := pair_dist p.1 p.2
    if distance > st.1 then (distance, some (orient_pair p.1 p.2)) else st

/-- `itertools.combinations(corners, r=2)`: unordered pairs in list order. -/
def combinations2 {α : Type} : List α → List (α × α)
  | [] => []
  | x :: xs => xs.map (fun y => (x, y)) ++ combinations2 xs

/-- `get_bounding_box_from_corners`: the two farthest-apart corners among
qualifying pairs, starting from `max_distance = 0`, `opp_ends = None`. -/
def get_bounding_box_from_corners (corners : List Location) :
    Option (Location × Location) :=
  ((combinations2 corners).foldl gbfc_step (0, none)).2

/-- `get_bounding_box_sampling_points`: the middle point of the selected
rectangle (carrying the second corner's depth) and the list of sampling
points — the middle point itself followed by 6 fixed offsets around it. -/
def get_bounding_box_sampling_points (ends : Location × Location) :
    Location × List Location :=
  let a := ends.1
  let b := ends.2
  let middle_point : Location := ⟨(a.x + b.x) / 2, (a.y + b.y) / 2, b.z⟩
  (middle_point,
   [middle_point,
    ⟨middle_point.x + 2, middle_point.y, middle_point.z⟩,
    ⟨middle_point.x + 1, middle_point.y + 1, middle_point.z⟩,
    ⟨middle_point.x + 1, middle_point.y - 1, middle_point.z⟩,
    ⟨middle_point.x - 2, middle_point.y, middle_point.z⟩,
    ⟨middle_point.x - 1, middle_point.y + 1, middle_point.z⟩,
    ⟨middle_point.x - 1, middle_point.y - 1, middle_point.z⟩])

/-- Model of the Python `int()` conversion on a float value: truncation
toward zero. -/
def pyInt (q : ℚ) : ℤ :=
  if q < 0 then ⌈q⌉ else ⌊q⌋

/-- `inside_image`: `x >= 0 and y >= 0 and x < img_width and y < img_height`. -/
def inside_image (x y : ℚ) (img_width img_height : ℤ) : Bool :=
  decide (0 ≤ x) && decide (0 ≤ y) &&
    decide (x < (img_width : ℚ)) && decide (y < (img_height : ℚ))

/-- `have_same_depth`: read the depth buffer at row `int(y)`, column `int(x)`
and compare `depth * 1000` with the projected depth `z`.  The depth buffer is
modelled as a total function from (row, column) to the stored value. -/
def have_same_depth (x y z : ℚ) (depth_array : ℤ → ℤ → ℚ) (threshold : ℚ) : Bool :=
  decide (|depth_array (pyInt y) (pyInt x) * 1000 - z| < threshold)

/-- A 2-D pixel bounding box `(xmin, xmax, ymin, ymax)`. -/
structure Bbox2D where
  xmin : ℤ
  xmax : ℤ
  ymin : ℤ
  ymax : ℤ
  deriving DecidableEq, Repr

/-- `select_max_bbox`: min/max of the integer-truncated x and y values of the
two selected corners. -/
def select_max_bbox (ends : Location × Location) : Bbox2D :=
  let xmin := pyInt ends.1.x
  let ymin := pyInt ends.1.y
  let cx := pyInt ends.2.x
  let cy := pyInt ends.2.y
  ⟨min xmin cx, max xmin cx, min ymin cy, max ymin cy⟩

/-- The small-box filter of `get_2d_bbox_from_3d_box`: `width > 1%` of the
image width, `height > 2%` of the image height, `width * height > 0.04%` of
the image area (all strict, computed on the integer box). -/
def bbox_large_enough (box : Bbox2D) (img_width img_height : ℤ) : Prop :=
  ((box.xmax - box.xmin : ℤ) : ℚ) > (img_width : ℚ) * 0.01 ∧
  ((box.ymax - box.ymin : ℤ) : ℚ) > (img_height : ℚ) * 0.02 ∧
  (((box.xmax - box.xmin) * (box.ymax - box.ymin) : ℤ) : ℚ) >
    (img_width : ℚ) * (img_height : ℚ) * 0.0004

instance (box : Bbox2D) (w h : ℤ) : Decidable (bbox_large_enough box w h) := by
  unfold bbox_large_enough; infer_instance

/-- `get_2d_bbox_from_3d_box`: full pipeline from the 3-D box to an optional
2-D pixel box.  `None` is modelled as `none`. -/
def get_2d_bbox_from_3d_box (depth_array : ℤ → ℤ → ℚ)
    (vehicle_transform obj_transform : Mat4) (bounding_box : BoundingBox)
    (rgb_transform : Mat4) (rgb_intrinsic : Mat3) (img_width img_height : ℤ)
    (middle_depth_threshold neighbor_threshold : ℚ) : Option Bbox2D :=
  let corners := map_ground_bounding_box_to_2D vehicle_transform obj_transform
    bounding_box rgb_transform rgb_intrinsic img_width img_height
  if corners.length = 8 then
    match get_bounding_box_from_corners corners with
    | none => none
    | some ends =>
      let mp := get_bounding_box_sampling_points ends
      let middle_point := mp.1
      let points := mp.2
      if inside_image middle_point.x middle_point.y img_width img_height &&
          have_same_depth middle_point.x middle_point.y middle_point.z
            depth_array middle_depth_threshold then
        let box := select_max_bbox ends
        if bbox_large_enough box img_width img_height then some box else none
      else
        let points_inside_image :=
          points.filter (fun p => inside_image p.x p.y img_width img_height)
        let same_depth_points := points_inside_image.map
          (fun p => have_same_depth p.x p.y p.z depth_array neighbor_threshold)
        if 0 < same_depth_points.length ∧
            ((same_depth_points.count true : ℚ) ≥
              0.4 * (same_depth_points.length : ℚ)) then
          let box := select_max_bbox ends
          if bbox_large_enough box img_width img_height then some box else none
        else none
  else none

/-- The (row, column) indices at which `get_2d_bbox_from_3d_box` reads the
depth buffer, in evaluation order, mirroring its control flow: the middle
point is read only after its `inside_image` test succeeds (the Python `and`
short-circuits), and in the neighbour branch exactly the sampling points that
passed `inside_image` are read. -/
def get_2d_bbox_depth_reads (depth_array : ℤ → ℤ → ℚ)
    (vehicle_transform obj_transform : Mat4) (bounding_box : BoundingBox)
    (rgb_transform : Mat4) (rgb_intrinsic : Mat3) (img_width img_height : ℤ)
    (middle_depth_threshold _neighbor_threshold : ℚ) : List (ℤ × ℤ) :=
  let corners := map_ground_bounding_box_to_2D vehicle_transform obj_transform
    bounding_box rgb_transform rgb_intrinsic img_width img_height
  if corners.length = 8 then
    match get_bounding_box_from_corners corners with
    | none => []
    | some ends =>
      let mp := get_bounding_box_sampling_points ends
      let middle_point := mp.1
      let points := mp.2
      if inside_image middle_point.x middle_point.y img_width img_height then
        if have_same_depth middle_point.x middle_point.y middle_point.z
            depth_array middle_depth_threshold then
          [(pyInt middle_point.y, pyInt middle_point.x)]
        else
          (pyInt middle_point.y, pyInt middle_point.x) ::
            (points.filter (fun p => inside_image p.x p.y img_width img_height)).map
              (fun p => (pyInt p.y, pyInt p.x))
      else
        (points.filter (fun p => inside_image p.x p.y img_width img_height)).map
          (fun p => (pyInt p.y, pyInt p.x))
  else []

/- ### Specification-side definitions

These follow the wording of the specification and of the claims, to be
compared against the definitions translated from the source above. -/

/-- The visibility condition as the specification words it: depth strictly
positive and at least one pixel coordinate inside its image range,
`x in [0, width)` or `y in [0, height)`. -/
def spec_visible (l : Location) (img_width img_height : ℤ) : Prop :=
  0 < l.z ∧
    ((0 ≤ l.x ∧ l.x < (img_width : ℚ)) ∨ (0 ≤ l.y ∧ l.y < (img_height : ℚ)))

instance (l : Location) (w h : ℤ) : Decidable (spec_visible l w h) := by
  unfold spec_visible; infer_instance

/-- The 6 offset sample points around the middle point, as the claim about the
neighbour gate words them (the middle point itself excluded). -/
def spec_offset_points (m : Location) : List Location :=
  [⟨m.x + 2, m.y, m.z⟩, ⟨m.x + 1, m.y + 1, m.z⟩, ⟨m.x + 1, m.y - 1, m.z⟩,
   ⟨m.x - 2, m.y, m.z⟩, ⟨m.x - 1, m.y + 1, m.z⟩, ⟨m.x - 1, m.y - 1, m.z⟩]

/-- The neighbour acceptance test as the claim words it: filter the 6 offset
points to those inside the image, and accept iff that set is non-empty and
the number matching the depth buffer within `neighbor_threshold` is at least
`0.4` times its size. -/
def spec_neighbor_accept (depth_array : ℤ → ℤ → ℚ) (neighbor_threshold : ℚ)
    (img_width img_height : ℤ) (m : Location) : Prop :=
  let pts := (spec_offset_points m).filter
    (fun p => inside_image p.x p.y img_width img_height)
  let matching := pts.map
    (fun p => have_same_depth p.x p.y p.z depth_array neighbor_threshold)
  0 < pts.length ∧
    ((matching.count true : ℚ) ≥ 0.4 * (matching.length : ℚ))

instance (d : ℤ → ℤ → ℚ) (t : ℚ) (w h : ℤ) (m : Location) :
    Decidable (spec_neighbor_accept d t w h m) := by
  unfold spec_neighbor_accept; infer_instance

/- ### Concrete scenarios used as witnesses and counterexamples -/

/-- A pure-translation pose matrix. -/
def translation4 (tx ty tz : ℚ) : Mat4 :=
  ⟨1, 0, 0, tx, 0, 1, 0, ty, 0, 0, 1, tz, 0, 0, 0, 1⟩

/-- A unit-half-extent box with identity pose. -/
def unitBBox : BoundingBox := ⟨idMat4, ⟨1, 1, 1⟩⟩

/-- Object pose for the main projection scenario: translated to
`(10, 10, 2)` in front of an identity camera. -/
def objPoseFront : Mat4 := translation4 10 10 2

/-- Object pose for the behind-the-camera scenario: translated to
`(0, 0, -10)`. -/
def objPoseBehind : Mat4 := translation4 0 0 (-10)

/-- Depth buffer for the scenario in which the middle-point gate passes: the
value at row 93, column 93 stores `3/1000`, i.e. exactly the projected depth
3 after the `* 1000` scaling. -/
def depthMidMatch : ℤ → ℤ → ℚ := fun i j =>
  if i = 93 ∧ j = 93 then 3 / 1000 else 1

/-- Depth buffer for the scenario in which the middle-point gate fails under
`middle_depth_threshold = 1` but the neighbour branch accepts: rows/columns
`(93,93)`, `(93,95)` and `(94,94)` store `1/10` (depth 100), everything else
stores `1` (depth 1000). -/
def depthNeighbor : ℤ → ℤ → ℚ := fun i j =>
  if (i = 93 ∧ j = 93) ∨ (i = 93 ∧ j = 95) ∨ (i = 94 ∧ j = 94) then 1 / 10 else 1

/- ### Control: `pid_control_operator.py`

The steering law uses `cos`, `sin`, `sqrt` and `acos`, so this part is
modelled over the reals.  The external `pid_controller.pid.PID` library is
abstracted as a function `pid : target → feedback → gain`, the quantity the
claims call the PID output for the current target speed and measured speed. -/

/-- The fields of a vehicle `Transform` that the controller reads:
`location.x`, `location.y` and `rotation.yaw` (degrees). -/
structure VehiclePose where
  x : ℝ
  y : ℝ
  yaw : ℝ

/-- The fields of a waypoint message that the controller reads: the target
speed and the planar location of `waypoints[0]`. -/
structure WaypointMsg where
  target_speed : ℝ
  waypoint_x : ℝ
  waypoint_y : ℝ

/-- A can-bus message: forward speed, vehicle transform, timestamp. -/
structure CanBusMsg where
  forward_speed : ℝ
  transform : VehiclePose
  timestamp : ℤ

/-- The configuration flags the controller reads. -/
structure ControlFlags where
  steer_gain : ℝ
  default_throttle : ℝ
  throttle_max : ℝ
  brake_strength : ℝ

/-- A `ControlMessage(steer, throttle, brake, hand_brake, reverse, timestamp)`. -/
structure ControlMessage where
  steer : ℝ
  throttle : ℝ
  brake : ℝ
  hand_brake : Bool
  reverse : Bool
  timestamp : ℤ

/-- The mutable state of `PIDControlOperator` read by `on_can_bus_update`. -/
structure PIDControlState where
  vehicle_transform : Option VehiclePose
  last_waypoint_msg : Option WaypointMsg
  latest_speed : ℝ

/-- `math.radians`: degrees to radians. -/
noncomputable def radians (d : ℝ) : ℝ := d * Real.pi / 180

/-- `_get_throttle_brake`, with the pid output abstracted as `pid_gain`:
`throttle = min(max(default_throttle - 1.3 * pid_gain, 0), throttle_max)`;
`brake = min(0.35 * pid_gain * brake_strength, 1)` if `pid_gain > 0.5` else `0`. -/
noncomputable def get_throttle_brake (flags : ControlFlags) (pid_gain : ℝ) : ℝ × ℝ :=
  (min (max (flags.default_throttle - 1.3 * pid_gain) 0) flags.throttle_max,
   if pid_gain > 0.5 then min (0.35 * pid_gain * flags.brake_strength) 1 else 0)

/-- `_get_steering`: planar waypoint vector and heading vector (both with the
z-component set to 0), normalized by their Euclidean norms, then
`acos` of their dot product, sign flipped when the z-component of the cross
product is negative, scaled by `steer_gain`, and clamped with `min` on the
positive side and `max` on the negative side. -/
noncomputable def get_steering (steer_gain : ℝ) (vehicle : VehiclePose)
    (wp_x wp_y : ℝ) : ℝ :=
  let wpx := wp_x - vehicle.x
  let wpy := wp_y - vehicle.y
  let vx := Real.cos (radians vehicle.yaw)
  let vy := Real.sin (radians vehicle.yaw)
  let wpn := Real.sqrt (wpx ^ 2 + wpy ^ 2 + 0 ^ 2)
  let wpx := wpx / wpn
  let wpy := wpy / wpn
  let vn := Real.sqrt (vx ^ 2 + vy ^ 2 + 0 ^ 2)
  let vx := vx / vn
  let vy := vy / vn
  let angle := Real.arccos (vx * wpx + vy * wpy)
  let angle := if vx * wpy - vy * wpx < 0 then -angle else angle
  let steering := steer_gain * angle
  if steering > 0 then min steering 1 else max steering (-1)

/-- `on_can_bus_update`: update speed and transform from the message, then
emit the neutral command when no waypoint message has ever been received,
else the throttle/brake/steer computed from the last waypoint message. -/
noncomputable def on_can_bus_update (flags : ControlFlags) (pid : ℝ → ℝ → ℝ)
    (st : PIDControlState) (msg : CanBusMsg) : ControlMessage :=
  let latest_speed := msg.forward_speed
  let vehicle_transform := msg.transform
  match st.last_waypoint_msg with
  | none => ⟨0, 0, 0, false, false, msg.timestamp⟩
  | some wmsg =>
      let pid_gain := pid wmsg.target_speed latest_speed
      let tb := get_throttle_brake flags pid_gain
      let steer := get_steering flags.steer_gain vehicle_transform
        wmsg.waypoint_x wmsg.waypoint_y
      ⟨steer, tb.1, tb.2, false, false, msg.timestamp⟩

/-- Conventional two-sided clamp, as the specification words it. -/
noncomputable def clamp (v lo hi : ℝ) : ℝ := max lo (min v hi)

/-- The steering law as the specification words it: normalize the planar
waypoint and heading vectors, take `acos` of their dot product, negate when
the z-component of the cross product is negative, scale by the gain and clamp
into `[-1, 1]`. -/
noncomputable def spec_steering (steer_gain : ℝ) (vehicle : VehiclePose)
    (wp_x wp_y : ℝ) : ℝ :=
  let tx := wp_x - vehicle.x
  let ty := wp_y - vehicle.y
  let n := Real.sqrt (tx ^ 2 + ty ^ 2)
  let tx := tx / n
  let ty := ty / n
  let hx := Real.cos (radians vehicle.yaw)
  let hy := Real.sin (radians vehicle.yaw)
  let hn := Real.sqrt (hx ^ 2 + hy ^ 2)
  let hx := hx / hn
  let hy := hy / hn
  let angle := Real.arccos (hx * tx + hy * ty)
  let signed_angle := if hx * ty - hy * tx < 0 then -angle else angle
  clamp (steer_gain * signed_angle) (-1) 1

/-- Concrete flags for the control witnesses. -/
noncomputable def flagsW : ControlFlags := ⟨3, 1/2, 3/4, 1⟩

/-- A concrete pid function for the control witnesses. -/
def pidW : ℝ → ℝ → ℝ := fun _ _ => 1

/-- A vehicle pose at the origin facing along +x. -/
noncomputable def poseW : VehiclePose := ⟨0, 0, 0⟩

/-- A waypoint message: target speed 10, waypoint at `(1, 0)`. -/
noncomputable def wmsgW : WaypointMsg := ⟨10, 1, 0⟩

/-- Controller state before any waypoint message. -/
noncomputable def stNoPlan : PIDControlState := ⟨none, none, 0⟩

/-- Controller state with a waypoint message received. -/
noncomputable def stWithPlan : PIDControlState := ⟨some poseW, some wmsgW, 0⟩

/-- A concrete can-bus message. -/
noncomputable def msgW : CanBusMsg := ⟨5, poseW, 7⟩

/-- The amended acceptance test of the neighbour branch, following the code:
all seven sampling points (the middle point and the 6 offsets) are filtered
to those inside the image; accept iff the set is non-empty and the number
matching the depth buffer within `neighbor_threshold` is at least `0.4`
times its size. -/
def spec_neighbor_accept7 (depth_array : ℤ → ℤ → ℚ) (neighbor_threshold : ℚ)
    (img_width img_height : ℤ) (ends : Location × Location) : Prop :=
  let pts := (get_bounding_box_sampling_points ends).2.filter
    (fun p => inside_image p.x p.y img_width img_height)
  let matching := pts.map
    (fun p => have_same_depth p.x p.y p.z depth_array neighbor_threshold)
  0 < matching.length ∧
    ((matching.count true : ℚ) ≥ 0.4 * (matching.length : ℚ))

instance (d : ℤ → ℤ → ℚ) (t : ℚ) (w h : ℤ) (e : Location × Location) :
    Decidable (spec_neighbor_accept7 d t w h e) := by
  unfold spec_neighbor_accept7; infer_instance

/- ### Helper lemmas -/

/-- A point that passed `inside_image` yields in-bounds truncated indices. -/
theorem inside_image_pyInt_bounds {x y : ℚ} {w h : ℤ}
    (hin : inside_image x y w h = true) :
    0 ≤ pyInt x ∧ pyInt x < w ∧ 0 ≤ pyInt y ∧ pyInt y < h := by
  unfold inside_image at hin
  simp only [Bool.and_eq_true, decide_eq_true_eq] at hin
  obtain ⟨⟨⟨hx0, hy0⟩, hxw⟩, hyh⟩ := hin
  unfold pyInt
  rw [if_neg (not_lt.mpr hx0), if_neg (not_lt.mpr hy0)]
  refine ⟨Int.floor_nonneg.mpr hx0, Int.floor_lt.mpr ?_, Int.floor_nonneg.mpr hy0,
    Int.floor_lt.mpr ?_⟩
  · exact_mod_cast hxw
  · exact_mod_cast hyh

/-- A pair that is not skipped has strictly positive squared distance. -/
theorem pair_dist_pos {a b : Location} (h : ¬ skip_pair a b) :
    0 < pair_dist a b := by
  unfold skip_pair at h
  push_neg at h
  have hx : (0.8 : ℚ) < |a.x - b.x| := h.1
  have hx0 : (0 : ℚ) < |b.x - a.x| := by
    rw [abs_sub_comm]; linarith
  have h2 : (0 : ℚ) < |b.x - a.x| ^ 2 := pow_pos hx0 2
  rw [sq_abs] at h2
  unfold pair_dist
  nlinarith [sq_nonneg (b.y - a.y)]

/-- Invariant of the loop state of `get_bounding_box_from_corners` relative
to a set `mem` of already-processed pairs: if no pair was selected, every
processed pair was skipped and the running maximum is 0; if a pair was
selected, it is the oriented version of a processed, non-skipped pair whose
squared distance is the running maximum over all processed non-skipped pairs. -/
def gbfc_good (mem : Location × Location → Prop)
    (st : ℚ × Option (Location × Location)) : Prop :=
  (st.2 = none → st.1 = 0 ∧ ∀ p, mem p → skip_pair p.1 p.2) ∧
  (∀ a b, st.2 = some (a, b) →
    ∃ p, mem p ∧ ¬ skip_pair p.1 p.2 ∧ st.1 = pair_dist p.1 p.2 ∧
      (a, b) = orient_pair p.1 p.2 ∧
      ∀ q, mem q → ¬ skip_pair q.1 q.2 → pair_dist q.1 q.2 ≤ st.1)

/-- `gbfc_good` only depends on the extension of `mem`. -/
theorem gbfc_good_mono {mem1 mem2 : Location × Location → Prop}
    (hiff : ∀ p, mem1 p ↔ mem2 p) {st : ℚ × Option (Location × Location)}
    (h : gbfc_good mem1 st) : gbfc_good mem2 st := by
  obtain ⟨hn, hs⟩ := h
  constructor
  · intro h0
    obtain ⟨h1, h2⟩ := hn h0
    exact ⟨h1, fun p hp => h2 p ((hiff p).mpr hp)⟩
  · intro a b hab
    obtain ⟨p, hp, hns, hd, ho, hmax⟩ := hs a b hab
    exact ⟨p, (hiff p).mp hp, hns, hd, ho,
      fun q hq hnq => hmax q ((hiff q).mpr hq) hnq⟩

/-- One loop iteration preserves the invariant, extending the processed set. -/
theorem gbfc_step_good {mem : Location × Location → Prop}
    {st : ℚ × Option (Location × Location)} {p : Location × Location}
    (h : gbfc_good mem st) :
    gbfc_good (fun q => mem q ∨ q = p) (gbfc_step st p) := by
  obtain ⟨hn, hs⟩ := h
  unfold gbfc_step
  by_cases hskip : skip_pair p.1 p.2
  · rw [if_pos hskip]
    constructor
    · intro h0
      obtain ⟨h1, h2⟩ := hn h0
      refine ⟨h1, fun q hq => ?_⟩
      rcases hq with hq | rfl
      · exact h2 q hq
      · exact hskip
    · intro a b hab
      obtain ⟨r, hr, hns, hd, ho, hmax⟩ := hs a b hab
      refine ⟨r, Or.inl hr, hns, hd, ho, fun q hq hnq => ?_⟩
      rcases hq with hq | rfl
      · exact hmax q hq hnq
      · exact absurd hskip hnq
  · rw [if_neg hskip]
    by_cases hgt : pair_dist p.1 p.2 > st.1
    · rw [if_pos hgt]
      constructor
      · intro h0
        exact absurd h0 (by simp)
      · intro a b hab
        simp only [Option.some.injEq] at hab
        refine ⟨p, Or.inr rfl, hskip, rfl, hab.symm, fun q hq hnq => ?_⟩
        rcases hq with hq | rfl
        · rcases hst : st.2 with _ | ⟨c, d⟩
          · obtain ⟨h1, h2⟩ := hn hst
            exact absurd (h2 q hq) hnq
          · obtain ⟨r, hr, hns, hd, ho, hmax⟩ := hs c d hst
            exact le_trans (hmax q hq hnq) (le_of_lt (hd ▸ hgt))
        · exact le_refl _
    · rw [if_neg hgt]
      push_neg at hgt
      constructor
      · intro h0
        obtain ⟨h1, h2⟩ := hn h0
        have hpos := pair_dist_pos hskip
        rw [h1] at hgt
        exact absurd hpos (not_lt.mpr hgt)
      · intro a b hab
        obtain ⟨r, hr, hns, hd, ho, hmax⟩ := hs a b hab
        refine ⟨r, Or.inl hr, hns, hd, ho, fun q hq hnq => ?_⟩
        rcases hq with hq | rfl
        · exact hmax q hq hnq
        · exact hgt
  
/-- Folding the loop body over a pair list preserves the invariant. -/
theorem gbfc_fold_good (l : List (Location × Location))
    (mem : Location × Location → Prop) (st : ℚ × Option (Location × Location))
    (h : gbfc_good mem st) :
    gbfc_good (fun q => mem q ∨ q ∈ l) (l.foldl gbfc_step st) := by
  induction l generalizing mem st with
  | nil =>
      exact gbfc_good_mono (fun q => by simp) h
  | cons x xs ih =>
      have hstep := gbfc_step_good (p := x) h
      have hfold := ih _ _ hstep
      refine gbfc_good_mono (fun q => ?_) hfold
      simp [List.mem_cons]
      tauto

/- ### Claim theorems -/

/-- C1 (amended): a projected corner is added to the list returned by
`map_ground_bounding_box_to_2D` iff its projected depth z is strictly
positive, at least one of `x >= 0` or `y >= 0` holds, and at least one of
`x < width` or `y < height` holds.  The code tests the lower bounds and the
upper bounds independently, each as an inclusive OR across the two
coordinates, which is weaker than requiring one coordinate to lie fully
inside its image range. -/
theorem c1_corner_filter_amended (vehicle_transform obj_transform : Mat4)
    (bounding_box : BoundingBox) (rgb_transform : Mat4) (rgb_intrinsic : Mat3)
    (w h : ℤ) (l : Location) :
    l ∈ map_ground_bounding_box_to_2D vehicle_transform obj_transform
        bounding_box rgb_transform rgb_intrinsic w h ↔
      l ∈ projected_corners vehicle_transform obj_transform bounding_box
          rgb_transform rgb_intrinsic w h ∧
        (0 < l.z ∧ (0 ≤ l.x ∨ 0 ≤ l.y) ∧ (l.x < (w : ℚ) ∨ l.y < (h : ℚ))) := by
  unfold map_ground_bounding_box_to_2D corner_visible
  rw [List.mem_filter]
  simp [Bool.and_eq_true, Bool.or_eq_true, decide_eq_true_eq, and_assoc]

/-- C1 counterexample: with identity transforms, identity intrinsics and a
4 x 3 image, the box with half extents `(5, 1, 1)` projects a corner to
`(-1, 4, 1)`, which the code keeps although neither `x in [0, 4)` nor
`y in [0, 3)` holds, refuting the claimed inclusive-OR per-coordinate
visibility test. -/
theorem c1_or_visibility_counterexample :
    (Location.mk (-1) 4 1) ∈ map_ground_bounding_box_to_2D idMat4 idMat4
        ⟨idMat4, ⟨5, 1, 1⟩⟩ idMat4 idMat3 4 3 ∧
      ¬ spec_visible ⟨-1, 4, 1⟩ 4 3 := by decide

/-- C2: `get_2d_bbox_from_3d_box` returns no box whenever fewer than 8
projected corners survive the visibility filter, and in particular whenever
all corners project with non-positive depth (object fully behind the
camera); no exception is possible since the embedding is a total function. -/
theorem c2_fewer_than_eight_no_box (depth_array : ℤ → ℤ → ℚ)
    (vehicle_transform obj_transform : Mat4) (bounding_box : BoundingBox)
    (rgb_transform : Mat4) (rgb_intrinsic : Mat3) (w h : ℤ) (mt nt : ℚ) :
    ((map_ground_bounding_box_to_2D vehicle_transform obj_transform
        bounding_box rgb_transform rgb_intrinsic w h).length < 8 →
      get_2d_bbox_from_3d_box depth_array vehicle_transform obj_transform
        bounding_box rgb_transform rgb_intrinsic w h mt nt = none) ∧
    ((∀ l ∈ projected_corners vehicle_transform obj_transform bounding_box
        rgb_transform rgb_intrinsic w h, l.z ≤ 0) →
      get_2d_bbox_from_3d_box depth_array vehicle_transform obj_transform
        bounding_box rgb_transform rgb_intrinsic w h mt nt = none) := by
  constructor
  · intro hlt
    have hne : ¬ ((map_ground_bounding_box_to_2D vehicle_transform obj_transform
        bounding_box rgb_transform rgb_intrinsic w h).length = 8) := by omega
    unfold get_2d_bbox_from_3d_box
    rw [if_neg hne]
  · intro hz
    have hnil : map_ground_bounding_box_to_2D vehicle_transform obj_transform
        bounding_box rgb_transform rgb_intrinsic w h = [] := by
      unfold map_ground_bounding_box_to_2D
      rw [List.filter_eq_nil_iff]
      intro l hl
      unfold corner_visible
      simp only [Bool.and_eq_true, Bool.or_eq_true, decide_eq_true_eq, not_and, not_or]
      intro h0
      exact absurd h0 (not_lt.mpr (hz l hl))
    have hne : ¬ ((map_ground_bounding_box_to_2D vehicle_transform obj_transform
        bounding_box rgb_transform rgb_intrinsic w h).length = 8) := by
      rw [hnil]; decide
    unfold get_2d_bbox_from_3d_box
    rw [if_neg hne]

/-- C2 witness: an object translated to `(0, 0, -10)` behind an identity
camera loses all corners to the depth test, and the pipeline returns no box. -/
theorem c2_behind_camera_witness :
    (map_ground_bounding_box_to_2D idMat4 objPoseBehind unitBBox idMat4 idMat3
        100 100).length < 8 ∧
    get_2d_bbox_from_3d_box depthMidMatch idMat4 objPoseBehind unitBBox idMat4
        idMat3 100 100 1 500 = none :=
  ⟨by decide,
   (c2_fewer_than_eight_no_box depthMidMatch idMat4 objPoseBehind unitBBox
     idMat4 idMat3 100 100 1 500).2 (by decide)⟩

/-- C3 (amended): `get_bounding_box_from_corners` returns no pair iff every
unordered pair of corners is skipped by the closeness test
(`|dx| <= 0.8 or |dy| <= 0.8`); when it returns a pair, that pair is the
orientation `orient_pair` of some non-skipped pair of maximal squared
distance — oriented as `(a, b)` when `a.x < b.x` and `a.y < b.y` and as
`(b, a)` otherwise, so the first corner need not have both coordinates
smaller than the second. -/
theorem c3_max_pair_amended (corners : List Location) :
    (get_bounding_box_from_corners corners = none ↔
      ∀ p ∈ combinations2 corners, skip_pair p.1 p.2) ∧
    (∀ a b, get_bounding_box_from_corners corners = some (a, b) →
      ∃ p ∈ combinations2 corners, ¬ skip_pair p.1 p.2 ∧
        (a, b) = orient_pair p.1 p.2 ∧
        ∀ q ∈ combinations2 corners, ¬ skip_pair q.1 q.2 →
          pair_dist q.1 q.2 ≤ pair_dist p.1 p.2) := by
  have hinit : gbfc_good (fun _ => False) ((0 : ℚ), none) := by
    constructor
    · intro _; exact ⟨rfl, fun p hp => hp.elim⟩
    · intro a b hab; simp at hab
  have hfold := gbfc_fold_good (combinations2 corners) _ _ hinit
  have hgood : gbfc_good (fun q => q ∈ combinations2 corners)
      ((combinations2 corners).foldl gbfc_step ((0 : ℚ), none)) :=
    gbfc_good_mono (fun q => by simp) hfold
  obtain ⟨hnone, hsome⟩ := hgood
  constructor
  · constructor
    · intro h0
      intro p hp
      exact (hnone h0).2 p hp
    · intro hall
      unfold get_bounding_box_from_corners
      rcases hst : ((combinations2 corners).foldl gbfc_step ((0 : ℚ), none)).2
        with _ | ⟨a, b⟩
      · rfl
      · obtain ⟨p, hp, hns, _, _, _⟩ := hsome a b hst
        exact absurd (hall p hp) hns
  · intro a b hab
    unfold get_bounding_box_from_corners at hab
    obtain ⟨p, hp, hns, hd, ho, hmax⟩ := hsome a b hab
    exact ⟨p, hp, hns, ho, fun q hq hnq => hd ▸ hmax q hq hnq⟩

/-- C3 counterexample: for the two corners `(0, 10)` and `(10, 0)` the code
returns the pair `((10, 0), (0, 10))`, whose first corner has the larger x
and the smaller y — the claimed min/min-then-max/max orientation fails. -/
theorem c3_orientation_counterexample :
    get_bounding_box_from_corners [⟨0, 10, 0⟩, ⟨10, 0, 0⟩] =
        some (⟨10, 0, 0⟩, ⟨0, 10, 0⟩) ∧
      ¬ ((Location.mk 10 0 0).x < (Location.mk 0 10 0).x ∧
         (Location.mk 10 0 0).y < (Location.mk 0 10 0).y) := by decide

/-- C3 witness: on the corner list `[(0,0,0), (2,2,5)]` the selected pair is
the oriented maximal non-skipped pair. -/
theorem c3_max_pair_witness :
    ∃ p ∈ combinations2 [(⟨0, 0, 0⟩ : Location), ⟨2, 2, 5⟩],
      ¬ skip_pair p.1 p.2 ∧
      ((⟨0, 0, 0⟩ : Location), (⟨2, 2, 5⟩ : Location)) = orient_pair p.1 p.2 ∧
      ∀ q ∈ combinations2 [(⟨0, 0, 0⟩ : Location), ⟨2, 2, 5⟩],
        ¬ skip_pair q.1 q.2 → pair_dist q.1 q.2 ≤ pair_dist p.1 p.2 :=
  (c3_max_pair_amended [⟨0, 0, 0⟩, ⟨2, 2, 5⟩]).2 ⟨0, 0, 0⟩ ⟨2, 2, 5⟩ (by decide)

/-- C7: every box returned by `get_2d_bbox_from_3d_box` passes the strict
small-box filter: width above 1 percent of the image width, height above 2
percent of the image height, and area above 0.04 percent of the image area;
a candidate failing any of the three is rejected with no box. -/
theorem c7_min_size_thresholds (depth_array : ℤ → ℤ → ℚ)
    (vehicle_transform obj_transform : Mat4) (bounding_box : BoundingBox)
    (rgb_transform : Mat4) (rgb_intrinsic : Mat3) (w h : ℤ) (mt nt : ℚ)
    (box : Bbox2D)
    (hr : get_2d_bbox_from_3d_box depth_array vehicle_transform obj_transform
        bounding_box rgb_transform rgb_intrinsic w h mt nt = some box) :
    bbox_large_enough box w h := by
  unfold get_2d_bbox_from_3d_box at hr
  dsimp only at hr
  split at hr
  · split at hr
    · exact absurd hr (by simp)
    · split at hr
      · split at hr
        · rename_i hlarge
          rw [Option.some.injEq] at hr
          exact hr ▸ hlarge
        · exact absurd hr (by simp)
      · split at hr
        · split at hr
          · rename_i hlarge
            rw [Option.some.injEq] at hr
            exact hr ▸ hlarge
          · exact absurd hr (by simp)
        · exact absurd hr (by simp)
  · exact absurd hr (by simp)

/-- C7 witness: the front-scenario box `(89, 97, 89, 97)` returned on a
100 x 100 image satisfies the three strict thresholds. -/
theorem c7_min_size_witness : bbox_large_enough ⟨89, 97, 89, 97⟩ 100 100 :=
  c7_min_size_thresholds depthMidMatch idMat4 objPoseFront unitBBox idMat4
    idMat3 100 100 1 500 ⟨89, 97, 89, 97⟩ (by decide)

/-- Any (row, column) pair obtained by mapping `pyInt` over points that passed
the `inside_image` filter is within the image bounds. -/
theorem mem_reads_map_bounds {points : List Location} {w h r c : ℤ}
    (hmem : (r, c) ∈ (points.filter
        (fun p => inside_image p.x p.y w h)).map (fun p => (pyInt p.y, pyInt p.x))) :
    0 ≤ c ∧ c < w ∧ 0 ≤ r ∧ r < h := by
  obtain ⟨p, hp, heq⟩ := List.mem_map.mp hmem
  obtain ⟨_, hpin⟩ := List.mem_filter.mp hp
  rw [Prod.mk.injEq] at heq
  obtain ⟨rfl, rfl⟩ := heq
  obtain ⟨h1, h2, h3, h4⟩ := inside_image_pyInt_bounds hpin
  exact ⟨h1, h2, h3, h4⟩

/-- C8 (amended): when the middle-point gate fails (middle point outside the
image, or its depth mismatching under `middle_depth_threshold`),
`get_2d_bbox_from_3d_box` filters all seven sampling points — the middle
point itself and the 6 offsets — to those inside the image, and returns the
selected box iff that set is non-empty, the fraction matching the depth
buffer within `neighbor_threshold` is at least 0.4 (ties accepted), and the
box passes the small-box filter; the claimed filtering of only the 6 offset
points does not match the code. -/
theorem c8_neighbor_gate_amended (depth_array : ℤ → ℤ → ℚ)
    (vehicle_transform obj_transform : Mat4) (bounding_box : BoundingBox)
    (rgb_transform : Mat4) (rgb_intrinsic : Mat3) (w h : ℤ) (mt nt : ℚ)
    (ends : Location × Location)
    (hlen : (map_ground_bounding_box_to_2D vehicle_transform obj_transform
        bounding_box rgb_transform rgb_intrinsic w h).length = 8)
    (hends : get_bounding_box_from_corners (map_ground_bounding_box_to_2D
        vehicle_transform obj_transform bounding_box rgb_transform
        rgb_intrinsic w h) = some ends)
    (hgate : ¬ ((inside_image (get_bounding_box_sampling_points ends).1.x
          (get_bounding_box_sampling_points ends).1.y w h &&
        have_same_depth (get_bounding_box_sampling_points ends).1.x
          (get_bounding_box_sampling_points ends).1.y
          (get_bounding_box_sampling_points ends).1.z depth_array mt) = true)) :
    get_2d_bbox_from_3d_box depth_array vehicle_transform obj_transform
        bounding_box rgb_transform rgb_intrinsic w h mt nt =
      (if spec_neighbor_accept7 depth_array nt w h ends ∧
          bbox_large_enough (select_max_bbox ends) w h
       then some (select_max_bbox ends) else none) := by
  unfold get_2d_bbox_from_3d_box
  dsimp only
  rw [if_pos hlen, hends]
  dsimp only
  rw [if_neg hgate]
  by_cases hA : spec_neighbor_accept7 depth_array nt w h ends
  · have hA' := hA
    unfold spec_neighbor_accept7 at hA'
    dsimp only at hA'
    rw [if_pos hA']
    by_cases hB : bbox_large_enough (select_max_bbox ends) w h
    · rw [if_pos hB, if_pos ⟨hA, hB⟩]
    · rw [if_neg hB, if_neg (fun hc => hB hc.2)]
  · have hA' := hA
    unfold spec_neighbor_accept7 at hA'
    dsimp only at hA'
    rw [if_neg hA', if_neg (fun hc => hA hc.1)]

/-- C8 counterexample: in the front scenario with the `depthNeighbor` buffer,
`middle_depth_threshold = 1` and `neighbor_threshold = 500`, the selected
corner pair is `((89,89,1), (97,97,3))` with middle point `(93,93,3)`; the
middle-point gate fails, only 2 of the 6 offset points match the depth
buffer (2 < 0.4 * 6), so the claimed 6-offset-point rule rejects the box —
yet the code returns the box `(89, 97, 89, 97)`, because it also counts the
middle point itself (3 of 7 matches). -/
theorem c8_six_point_counterexample :
    get_bounding_box_from_corners (map_ground_bounding_box_to_2D idMat4
        objPoseFront unitBBox idMat4 idMat3 100 100) =
      some (⟨89, 89, 1⟩, ⟨97, 97, 3⟩) ∧
    (get_bounding_box_sampling_points (⟨89, 89, 1⟩, ⟨97, 97, 3⟩)).1 =
      ⟨93, 93, 3⟩ ∧
    ¬ ((inside_image (93 : ℚ) 93 100 100 &&
        have_same_depth 93 93 3 depthNeighbor 1) = true) ∧
    ¬ spec_neighbor_accept depthNeighbor 500 100 100 ⟨93, 93, 3⟩ ∧
    get_2d_bbox_from_3d_box depthNeighbor idMat4 objPoseFront unitBBox idMat4
        idMat3 100 100 1 500 = some ⟨89, 97, 89, 97⟩ := by decide

/-- C8 witness: in the same scenario the amended 7-point rule does predict
the code's output. -/
theorem c8_neighbor_gate_witness :
    get_2d_bbox_from_3d_box depthNeighbor idMat4 objPoseFront unitBBox idMat4
        idMat3 100 100 1 500 =
      (if spec_neighbor_accept7 depthNeighbor 500 100 100
            (⟨89, 89, 1⟩, ⟨97, 97, 3⟩) ∧
          bbox_large_enough (select_max_bbox (⟨89, 89, 1⟩, ⟨97, 97, 3⟩)) 100 100
       then some (select_max_bbox (⟨89, 89, 1⟩, ⟨97, 97, 3⟩)) else none) :=
  c8_neighbor_gate_amended depthNeighbor idMat4 objPoseFront unitBBox idMat4
    idMat3 100 100 1 500 (⟨89, 89, 1⟩, ⟨97, 97, 3⟩)
    (by decide) (by decide) (by decide)

/-- C10: every depth-buffer read of `get_2d_bbox_from_3d_box` — the middle
point read in the gate and the sampling-point reads in the neighbour branch,
as collected by `get_2d_bbox_depth_reads` — uses truncated indices inside
the `height x width` bounds, because each read point previously passed
`inside_image`. -/
theorem c10_depth_reads_in_bounds (depth_array : ℤ → ℤ → ℚ)
    (vehicle_transform obj_transform : Mat4) (bounding_box : BoundingBox)
    (rgb_transform : Mat4) (rgb_intrinsic : Mat3) (w h : ℤ) (mt nt : ℚ)
    (r c : ℤ)
    (hmem : (r, c) ∈ get_2d_bbox_depth_reads depth_array vehicle_transform
        obj_transform bounding_box rgb_transform rgb_intrinsic w h mt nt) :
    0 ≤ c ∧ c < w ∧ 0 ≤ r ∧ r < h := by
  unfold get_2d_bbox_depth_reads at hmem
  dsimp only at hmem
  split at hmem
  · split at hmem
    · exact absurd hmem (by simp)
    · split at hmem
      · rename_i hin
        split at hmem
        · simp only [List.mem_singleton, Prod.mk.injEq] at hmem
          obtain ⟨rfl, rfl⟩ := hmem
          obtain ⟨h1, h2, h3, h4⟩ := inside_image_pyInt_bounds hin
          exact ⟨h1, h2, h3, h4⟩
        · rcases List.mem_cons.mp hmem with heq | hmap
          · rw [Prod.mk.injEq] at heq
            obtain ⟨rfl, rfl⟩ := heq
            obtain ⟨h1, h2, h3, h4⟩ := inside_image_pyInt_bounds hin
            exact ⟨h1, h2, h3, h4⟩
          · exact mem_reads_map_bounds hmap
      · exact mem_reads_map_bounds hmem
  · exact absurd hmem (by simp)

/-- C10 witness: in the front scenario the gate reads row 93, column 93,
which is inside the 100 x 100 image. -/
theorem c10_depth_reads_witness :
    ((93 : ℤ), (93 : ℤ)) ∈ get_2d_bbox_depth_reads depthMidMatch idMat4
        objPoseFront unitBBox idMat4 idMat3 100 100 1 500 ∧
      (0 ≤ (93 : ℤ) ∧ (93 : ℤ) < 100 ∧ 0 ≤ (93 : ℤ) ∧ (93 : ℤ) < 100) :=
  ⟨by decide,
   c10_depth_reads_in_bounds depthMidMatch idMat4 objPoseFront unitBBox idMat4
     idMat3 100 100 1 500 93 93 (by decide)⟩

/-- The code's one-sided throttle clamp `min(max(v, lo), hi)` agrees with the
conventional clamp when `lo <= hi`. -/
theorem min_max_eq_clamp (v lo hi : ℝ) (h : lo ≤ hi) :
    min (max v lo) hi = clamp v lo hi := by
  unfold clamp
  rcases le_total v lo with h1 | h1
  · rw [max_eq_right h1, min_eq_left h,
      max_eq_left (le_trans (min_le_left v hi) h1)]
  · rw [max_eq_left h1]
    rcases le_total v hi with h2 | h2
    · rw [min_eq_left h2, max_eq_right h1]
    · rw [min_eq_right h2, max_eq_right h]

/-- The code's asymmetric steering clamp (`min` on the positive side, `max`
on the negative side) agrees with the conventional clamp into `[-1, 1]`. -/
theorem steer_clamp_eq_clamp (s : ℝ) :
    (if s > 0 then min s 1 else max s (-1)) = clamp s (-1) 1 := by
  unfold clamp
  by_cases h : s > 0
  · rw [if_pos h, max_eq_right]
    exact le_min (by linarith) (by norm_num)
  · rw [if_neg h]
    push_neg at h
    rw [min_eq_left (le_trans h (by norm_num)), max_comm]

/-- The code's asymmetric steering clamp always lands in `[-1, 1]`. -/
theorem steer_clamp_mem (s : ℝ) :
    (if s > 0 then min s 1 else max s (-1)) ∈ Set.Icc (-1 : ℝ) 1 := by
  by_cases h : s > 0
  · rw [if_pos h]
    exact ⟨le_min (by linarith) (by norm_num), min_le_right s 1⟩
  · rw [if_neg h]
    push_neg at h
    exact ⟨le_max_right s (-1), max_le (le_trans h (by norm_num)) (by norm_num)⟩

/-- C4: on a control tick with a waypoint message present, the emitted
throttle is `clamp(default_throttle - 1.3 * pid_gain, 0, throttle_max)` and
the emitted brake is `min(0.35 * pid_gain * brake_strength, 1)` when
`pid_gain > 0.5` and `0` otherwise, where `pid_gain` is the pid output for
the current target speed and the measured speed (assuming the sane
configuration `0 <= throttle_max`, under which the code's
`min(max(.., 0), throttle_max)` is the conventional clamp). -/
theorem c4_throttle_brake_formula (flags : ControlFlags) (pid : ℝ → ℝ → ℝ)
    (st : PIDControlState) (msg : CanBusMsg) (wmsg : WaypointMsg)
    (hw : st.last_waypoint_msg = some wmsg) (hmax : 0 ≤ flags.throttle_max) :
    (on_can_bus_update flags pid st msg).throttle =
      clamp (flags.default_throttle -
        1.3 * pid wmsg.target_speed msg.forward_speed) 0 flags.throttle_max ∧
    (on_can_bus_update flags pid st msg).brake =
      (if pid wmsg.target_speed msg.forward_speed > 0.5
       then min (0.35 * pid wmsg.target_speed msg.forward_speed *
         flags.brake_strength) 1
       else 0) := by
  unfold on_can_bus_update
  rw [hw]
  unfold get_throttle_brake
  dsimp only
  exact ⟨min_max_eq_clamp _ _ _ hmax, rfl⟩

/-- C4 witness: concrete flags, pid function, state and message. -/
theorem c4_throttle_brake_witness :
    (on_can_bus_update flagsW pidW stWithPlan msgW).throttle =
      clamp (flagsW.default_throttle -
        1.3 * pidW wmsgW.target_speed msgW.forward_speed) 0 flagsW.throttle_max ∧
    (on_can_bus_update flagsW pidW stWithPlan msgW).brake =
      (if pidW wmsgW.target_speed msgW.forward_speed > 0.5
       then min (0.35 * pidW wmsgW.target_speed msgW.forward_speed *
         flagsW.brake_strength) 1
       else 0) :=
  c4_throttle_brake_formula flagsW pidW stWithPlan msgW wmsgW rfl
    (by norm_num [flagsW])

/-- C5: for a waypoint distinct from the vehicle position, the steering
output equals the specification's formula — `steer_gain` times the `acos` of
the dot product of the normalized planar heading and waypoint vectors,
negated when the z-component of their cross product is negative, clamped
into `[-1, 1]` — and in particular always lies in `[-1, 1]`. -/
theorem c5_steering_formula (steer_gain : ℝ) (vehicle : VehiclePose)
    (wp_x wp_y : ℝ) (_hne : (wp_x, wp_y) ≠ (vehicle.x, vehicle.y)) :
    get_steering steer_gain vehicle wp_x wp_y =
      spec_steering steer_gain vehicle wp_x wp_y ∧
    get_steering steer_gain vehicle wp_x wp_y ∈ Set.Icc (-1 : ℝ) 1 := by
  constructor
  · unfold get_steering spec_steering
    dsimp only
    have h0 : ∀ a b : ℝ, a ^ 2 + b ^ 2 + 0 ^ 2 = a ^ 2 + b ^ 2 := fun a b => by
      ring
    rw [h0, h0]
    exact steer_clamp_eq_clamp _
  · unfold get_steering
    dsimp only
    exact steer_clamp_mem _

/-- C5 witness: vehicle at the origin facing along +x, waypoint at `(1, 0)`,
gain 1. -/
theorem c5_steering_witness :
    get_steering 1 poseW 1 0 = spec_steering 1 poseW 1 0 ∧
    get_steering 1 poseW 1 0 ∈ Set.Icc (-1 : ℝ) 1 :=
  c5_steering_formula 1 poseW 1 0 (by simp [poseW])

/-- C6: before any waypoint message has been received, every can-bus update
makes the controller emit the neutral command: steer 0, throttle 0, brake 0,
no hand brake, no reverse, at the message timestamp. -/
theorem c6_neutral_before_waypoint (flags : ControlFlags) (pid : ℝ → ℝ → ℝ)
    (st : PIDControlState) (msg : CanBusMsg)
    (h : st.last_waypoint_msg = none) :
    on_can_bus_update flags pid st msg =
      ⟨0, 0, 0, false, false, msg.timestamp⟩ := by
  unfold on_can_bus_update
  rw [h]

/-- C6 witness: the concrete no-plan state emits the neutral command. -/
theorem c6_neutral_witness :
    on_can_bus_update flagsW pidW stNoPlan msgW =
      ⟨0, 0, 0, false, false, msgW.timestamp⟩ :=
  c6_neutral_before_waypoint flagsW pidW stNoPlan msgW rfl
